import Mathlib

/-!
Shallow embedding of the StarUML PostgreSQL DDL generator (`src/generator.js`,
class `DDLGenerator`) and verification of the frozen claims about it.

The repository ships only `generator.js`; the helper module `codegen-utils`
(tag lookup, identifier validation, the `CodeWriter` line accumulator) is not
under `src/`, so those helpers are modelled from the spec (each such
definition carries a doc comment starting with `Modelled from the spec:`).
Everything else is translated directly from `generator.js`.

JavaScript peculiarities that matter are embedded explicitly:
  * string falsiness (`""`/`undefined` are falsy) is rendered through
    `Option String` and emptiness tests;
  * `elem.length == -1` on a possibly-absent length is `Option Int` equality
    with `some (-1)`;
  * the foreign-key accumulator `refs` in `generateTables` is threaded
    exactly as in the source (it is never reset between diagrams);
  * the index grouping in `writeUserIndexes` uses a JavaScript `Array` as a
    dictionary; `Array.prototype.forEach` visits only integer-indexed
    entries (keys that are canonical decimal strings of numbers < 2^32 - 1),
    which the embedding reproduces;
  * a statement that would throw (reading `.trim()` of an `undefined`
    documentation field) is an `Except.error`.
-/

set_option maxRecDepth 20000

namespace DDL

/-- Severity-tagged diagnostic messages sent to the host application
(`app.toast.*` and `app.dialogs.*` in the source). -/
inductive Toast where
  | info (msg : String)
  | warning (msg : String)
  | error (msg : String)
  | dialogInfo (msg : String)
  | dialogError (msg : String)
deriving DecidableEq, Repr

/-- Tag kinds; the source only discriminates `TK_REFERENCE` from the rest. -/
inductive TagKind where
  | string
  | reference
deriving DecidableEq, Repr

/-- Second-level reference target of a reference tag
(`t.reference.reference` in the source); only its `name` is read. -/
structure NamedRef where
  name : String := ""
deriving DecidableEq, Repr

/-- First-level reference target of a reference tag (`t.reference`). -/
structure TagRef where
  name : String := ""
  value : String := ""
  reference : Option NamedRef := none
deriving DecidableEq, Repr

/-- A metadata annotation attached to a model element.  String tags carry a
name/value pair; index tags additionally use `number` (sequence) and
`checked` (descending); reference tags carry a `reference` chain. -/
structure Tag where
  name : String := ""
  kind : TagKind := TagKind.string
  value : String := ""
  number : Int := 0
  checked : Bool := false
  reference : Option TagRef := none
deriving DecidableEq, Repr

/-- Modelled from the spec: `tag(kind, element)` returns the first annotation
on the element whose name matches, or none (`codegen-utils` is not under
`src/`). -/
def tagLookup (n : String) : List Tag → Option Tag
  | [] => none
  | t :: ts => if t.name = n then some t else tagLookup n ts

/-- Modelled from the spec: `tagByValue(value, element)` returns the first
annotation whose value matches (used for `index` membership tags). -/
def tagByValue (v : String) : List Tag → Option Tag
  | [] => none
  | t :: ts => if t.value = v then some t else tagByValue v ts

/-- Modelled from the spec: `tagsByValue(value, element)` returns all
annotations whose value matches, in order (index tags may repeat). -/
def tagsByValue (v : String) (ts : List Tag) : List Tag :=
  ts.filter (fun t => t.value = v)

/-- Modelled from the spec: `stringTag(name, element)` returns the value of
the named string tag, or the empty string when the tag is absent. -/
def stringTag (n : String) (ts : List Tag) : String :=
  match tagLookup n ts with
  | some t => t.value
  | none => ""

/-! JavaScript string built-ins (`toLowerCase`, `trim`, `split`) and the
`codegen-utils` helpers are embedded as structurally-recursive functions
over the character list, so that every definition evaluates inside the
kernel. -/

/-- ASCII lower-casing of one character (JS `toLowerCase` on the character
range the generator ever produces). -/
def charToLower (c : Char) : Char :=
  if 'A' ≤ c ∧ c ≤ 'Z' then Char.ofNat (c.toNat + 32) else c

/-- JS `toLowerCase`. -/
def toLowerStr (s : String) : String :=
  String.mk (s.data.map charToLower)

/-- JS whitespace for `trim` (the characters that can occur here). -/
def jsWhitespace (c : Char) : Bool :=
  c = ' ' || c = '\t' || c = '\n' || c = '\r'

/-- JS `trim`: strip whitespace from both ends. -/
def trimStr (s : String) : String :=
  String.mk (((s.data.dropWhile jsWhitespace).reverse.dropWhile jsWhitespace).reverse)

/-- JS `split` on a single-character separator, on character lists:
`"a|".split("|") = ["a", ""]`, `"".split("|") = [""]`. -/
def splitChar (sep : Char) : List Char → List (List Char)
  | [] => [[]]
  | c :: rest =>
    let r := splitChar sep rest
    if c = sep then [] :: r
    else
      match r with
      | h :: t => (c :: h) :: t
      | [] => [[c]]

/-- JS `split` on a single-character separator, on strings. -/
def jsSplit (s : String) (sep : Char) : List String :=
  (splitChar sep s.data).map String.mk

/-- Modelled from the spec: `replaceAll(str, from, to)` replaces every
occurrence of a substring (every call in the source uses a one-character
substring: spaces or dashes). -/
def replaceAll (s from_ to_ : String) : String :=
  match from_.data with
  | [sep] => String.mk (List.intercalate to_.data (splitChar sep s.data))
  | _ => s

/-- Modelled from the spec: a resolved SQL identifier is valid iff it is
non-empty and consists only of letters, digits and underscores. -/
def isValidIdentifier (s : String) : Bool :=
  s ≠ "" && s.toList.all (fun c => c.isAlphanum || c = '_')

/-- Modelled from the spec: `asComment` renders documentation text as an SQL
string literal (the exact quoting is opaque to every claim). -/
def asComment (s : String) : String :=
  "'" ++ s ++ "'"

/-- Modelled from the spec: `enumAsList` turns a delimiter-separated list of
enum literals into a quoted, comma-separated list. -/
def enumAsList (s : String) : String :=
  String.intercalate ", " ((jsSplit s ',').map (fun x => "'" ++ x ++ "'"))

/-- JavaScript truthiness of a possibly-absent string
(`undefined` and `""` are falsy). -/
def optTruthy : Option String → Bool
  | none => false
  | some s => s ≠ ""

/-- `pat` occurs as a substring of `s` (JS `s.indexOf(pat) != -1`). -/
def containsSubstr (s pat : String) : Bool :=
  decide (List.IsInfix pat.toList s.toList)

/-- `n` copies of string `s` concatenated. -/
def strRepeat (s : String) (n : Nat) : String :=
  String.join (List.replicate n s)

/-- Options recognized by the generator (§6 of the spec / `options` in the
source). -/
structure Options where
  useTab : Bool := false
  indentSpaces : Nat := 4
  owner : String := "postgres"
  encoding : String := "UTF8"
  tablespace : String := "pg_default"
  collation : String := "default"
  dropStatements : Bool := false
  foreignKeyConstraint : Bool := true
  tableInserts : Bool := false
  trigger : String := "trigger"
  function : String := "function"
  procedure : String := "procedure"
deriving DecidableEq, Repr

/-- `getIndentString` from the source: a tab, or `indentSpaces` spaces. -/
def getIndentString (options : Options) : String :=
  if options.useTab then "\t" else strRepeat " " options.indentSpaces

/-- Modelled from the spec: the `CodeWriter` text emitter of `codegen-utils`
(not under `src/`): an indentation-tracking line accumulator.  `writeLine`
with text pushes the indented line; `writeLine()` pushes an empty line. -/
structure CodeWriter where
  indentStr : String
  level : Nat := 0
  lines : List String := []
deriving DecidableEq, Repr

/-- The indentation prefix the writer would use `k` levels deeper than its
current level. -/
def CodeWriter.indAt (w : CodeWriter) (k : Nat) : String :=
  strRepeat w.indentStr (w.level + k)

/-- Modelled from the spec: `writeLine(text)` appends the indented line;
an empty `text` (JS `writeLine()`) appends an empty line. -/
def CodeWriter.writeLine (w : CodeWriter) (s : String := "") : CodeWriter :=
  if s = "" then { w with lines := w.lines ++ [""] }
  else { w with lines := w.lines ++ [w.indAt 0 ++ s] }

/-- Modelled from the spec: a buffer has content iff something was written
to it. -/
def CodeWriter.hasContent (w : CodeWriter) : Bool :=
  w.lines ≠ []

/-- A fresh writer for the given options (indent level 0, no lines). -/
def freshWriter (options : Options) : CodeWriter :=
  { indentStr := getIndentString options }

/-- Parent chain of a referenced entity, as read by the foreign-key
resolution in `generateTable` (`refCol._parent._parent`): an `ERDDiagram`
(with its tags, and its own parent data model's tags when that parent is an
`ERDDataModel`), an `ERDDataModel`, or anything else. -/
inductive RefParent where
  | diagram (tags : List Tag) (dataModelTags : Option (List Tag))
  | dataModel (tags : List Tag)
  | other
deriving DecidableEq, Repr

/-- The entity owning a referenced column (`refCol._parent`). -/
structure RefEntity where
  name : String := ""
  tags : List Tag := []
  parent : RefParent := RefParent.other
deriving DecidableEq, Repr

/-- A referenced column (`col.referenceTo`), with the parent chain the
foreign-key resolution walks. -/
structure RefColumn where
  name : String := ""
  tags : List Tag := []
  parent : RefEntity := {}
deriving DecidableEq, Repr

/-- An `ERDColumn` of the model graph (§3 of the spec). -/
structure Column where
  name : String := ""
  tags : List Tag := []
  type : String := ""
  length : Option Int := none
  nullable : Bool := true
  primaryKey : Bool := false
  unique : Bool := false
  foreignKey : Bool := false
  referenceTo : Option RefColumn := none
  documentation : Option String := none
  is_enum : Bool := false
deriving DecidableEq, Repr

/-- An `ERDEntity` (table) of the model graph. -/
structure Entity where
  name : String := ""
  tags : List Tag := []
  documentation : Option String := none
  columns : List Column := []
deriving DecidableEq, Repr

/-- An element owned by a data model: a diagram, a direct entity, or
something the generator ignores.  The source iterates a diagram's
`ownedElements` without any type check, treating each one as an entity. -/
inductive DMOwned where
  | diagram (name : String) (tags : List Tag) (entities : List Entity)
  | entity (e : Entity)
  | other
deriving DecidableEq, Repr

/-- An `ERDDataModel`. -/
structure DataModel where
  name : String := ""
  tags : List Tag := []
  documentation : Option String := none
  ownedElements : List DMOwned := []
deriving DecidableEq, Repr

/-- An element owned by the top-level element handed to `generate`. -/
inductive TopOwned where
  | dataModel (dm : DataModel)
  | other
deriving DecidableEq, Repr

/-- The top-level element handed to `generate`; `isProject` reflects the
`elem instanceof type.Project` test. -/
structure TopElem where
  isProject : Bool := true
  name : String := ""
  author : String := ""
  documentation : Option String := none
  tags : List Tag := []
  ownedElements : List TopOwned := []
deriving DecidableEq, Repr

/-! ## Identifier resolution (`tableName`, `routineName`, `columnName`,
`columnDefault`, `schemaName` from the source) -/

/-- Common body of `tableName`/`columnName`: prefer the named override tag,
else derive from the display name; validate; on failure emit the given
diagnostic and return the empty string; on success lower-case. -/
def resolveName (tagName : String) (ts : List Tag) (displayName : String)
    (diag : String → Toast) : String × List Toast :=
  let dbName := match tagLookup tagName ts with
    | some t => t.value
    | none => ""
  let dbName := if dbName = "" then replaceAll displayName " " "_" else dbName
  if !(isValidIdentifier dbName) then ("", [diag dbName])
  else (toLowerStr dbName, [])

/-- `tableName(elem, options)` from the source. -/
def tableName (elem : Entity) (_options : Options) : String × List Toast :=
  resolveName "table" elem.tags elem.name
    (fun dbName => Toast.error ("Table name is not valid: " ++ dbName ++
      ", please edit the table tag for " ++ elem.name))

/-- `tableName` applied to a referenced entity in the foreign-key section. -/
def refTableNameOf (elem : RefEntity) (_options : Options) : String × List Toast :=
  resolveName "table" elem.tags elem.name
    (fun dbName => Toast.error ("Table name is not valid: " ++ dbName ++
      ", please edit the table tag for " ++ elem.name))

/-- `columnName(elem, options)` from the source. -/
def columnName (elem : Column) (_options : Options) : String × List Toast :=
  resolveName "column" elem.tags elem.name
    (fun dbName => Toast.error ("Column name is not valid: " ++ dbName ++
      ", please edit the column tag for " ++ elem.name))

/-- `columnName` applied to a referenced column in the foreign-key section. -/
def refColumnNameOf (elem : RefColumn) (_options : Options) : String × List Toast :=
  resolveName "column" elem.tags elem.name
    (fun dbName => Toast.error ("Column name is not valid: " ++ dbName ++
      ", please edit the column tag for " ++ elem.name))

/-- `routineName(elem, options)` from the source (note: the space/dash
normalization only runs when the name is already falsy, as in the source). -/
def routineName (name : String) (_options : Options) : String × List Toast :=
  let r := name
  let r := if r = "" then replaceAll (replaceAll r " " "_") "-" "_" else r
  if !(isValidIdentifier r) then
    ("", [Toast.error ("Routine name is not valid: " ++ r ++
      ", please edit the name for " ++ name)])
  else (toLowerStr r, [])

/-- `columnDefault(elem, options)` from the source: the `DEFAULT` clause for
a column, or the empty string when there is no `default` tag. -/
def columnDefault (elem : Column) (_options : Options) : String :=
  match tagLookup "default" elem.tags with
  | none => ""
  | some t => " DEFAULT " ++ t.value

/-- `schemaName(elem, options)` applied to the parent of a referenced
entity (a diagram is dereferenced to its own parent first; anything that is
not a data model resolves to `"public"`; an invalid explicit schema name is
warned about but still returned, as in the source). -/
def schemaNameOfTags (ts : List Tag) : String × List Toast :=
  let dbName := stringTag "schema" ts
  if dbName = "" then ("public", [])
  else if !(isValidIdentifier dbName) then
    (dbName, [Toast.warning ("Schema name not valid: " ++ dbName)])
  else (dbName, [])

/-- `schemaName` on a `RefParent` (the referenced entity's parent). -/
def schemaNameOfRefParent : RefParent → String × List Toast
  | RefParent.diagram _ (some dmTags) => schemaNameOfTags dmTags
  | RefParent.diagram _ none => ("public", [])
  | RefParent.dataModel ts => schemaNameOfTags ts
  | RefParent.other => ("public", [])

/-! ## Type mapping (`dataType` from the source) -/

/-- JS string interpolation of a possibly-absent length
(`"(" + elem.length + ")"` renders an absent length as `undefined`). -/
def jsLen : Option Int → String
  | none => "undefined"
  | some n => toString n

/-- `varLenFunc` from the source. -/
def varLenFunc (elem : Column) : String :=
  "(" ++ jsLen elem.length ++ ")"

/-- `noLenFunc` from the source. -/
def noLenFunc (_elem : Column) : String :=
  ""

/-- `typeOf` from the source. -/
def typeOf (type_ : String) (lenFunc : Column → String) (elem : Column) : String :=
  type_ ++ lenFunc elem

/-- `typeOfWithOverride` from the source: the override applies exactly when
`elem.length == -1` (an absent length is not `== -1`). -/
def typeOfWithOverride (type_ override : String) (lenFunc : Column → String)
    (elem : Column) : String :=
  if elem.length = some (-1) then override ++ lenFunc elem
  else type_ ++ lenFunc elem

/-- `dataType(elem, options)` from the source; the JS map object is rendered
as a direct match on the abstract type key, with unrecognized types passed
through verbatim. -/
def dataType (elem : Column) (_options : Options) : String :=
  match elem.type with
  | "VARCHAR" => typeOf "varchar" varLenFunc elem
  | "BOOLEAN" => typeOf "boolean" noLenFunc elem
  | "INTEGER" => typeOfWithOverride "integer" "serial" noLenFunc elem
  | "CHAR" => typeOf "char" varLenFunc elem
  | "BINARY" => typeOf "bytea" noLenFunc elem
  | "VARBINARY" => typeOf "bytea" noLenFunc elem
  | "BLOB" => typeOf "bytea" noLenFunc elem
  | "TEXT" => typeOf "text" noLenFunc elem
  | "SMALLINT" => typeOfWithOverride "smallint" "smallserial" noLenFunc elem
  | "BIGINT" => typeOfWithOverride "bigint" "bigserial" noLenFunc elem
  | "DECIMAL" => typeOf "numeric" varLenFunc elem
  | "NUMERIC" => typeOf "numeric" varLenFunc elem
  | "FLOAT" => typeOf "real" noLenFunc elem
  | "DOUBLE" => typeOf "double precision" noLenFunc elem
  | "BIT" => typeOf "bit" varLenFunc elem
  | "DATE" => typeOf "date" noLenFunc elem
  | "TIME" => typeOf "time without time zone" noLenFunc elem
  | "DATETIME" => typeOf "timestamp with time zone" noLenFunc elem
  | "TIMESTAMPTZ" => typeOf "timestamp with time zone" noLenFunc elem
  | "TIMESTAMP" => typeOf "timestamp without time zone" noLenFunc elem
  | "POINT" => typeOf "point" noLenFunc elem
  | "POLYGON" => typeOf "polygon" noLenFunc elem
  | "CIDR" => typeOf "cidr" noLenFunc elem
  | "INET" => typeOf "inet" noLenFunc elem
  | t => t

/-- The 24 abstract type keys of the source's `dataType` map. -/
def recognizedTypeKeys : List String :=
  ["VARCHAR", "BOOLEAN", "INTEGER", "CHAR", "BINARY", "VARBINARY", "BLOB",
   "TEXT", "SMALLINT", "BIGINT", "DECIMAL", "NUMERIC", "FLOAT", "DOUBLE",
   "BIT", "DATE", "TIME", "DATETIME", "TIMESTAMPTZ", "TIMESTAMP", "POINT",
   "POLYGON", "CIDR", "INET"]

/-- The three auto-increment spellings of the dialect. -/
def isSerialSpelling (s : String) : Bool :=
  s = "serial" || s = "smallserial" || s = "bigserial"

/-! ## Column declaration (`columnDeclaration` from the source) -/

/-- A queued column comment (`comments.push({col, doc})`). -/
structure Comment where
  col : String
  doc : String
deriving DecidableEq, Repr

/-- `columnDeclaration(columnName, elem, comments, defaultValue, options)`
from the source: builds the column line and appends a queued comment when
the column has documentation.  (The source additionally resets `elem.type`
to `"enum"` when `is_enum` is set; nothing in the module reads the column's
type afterwards, so that mutation has no observable effect here.) -/
def columnDeclaration (columnName_ : String) (elem : Column)
    (comments : List Comment) (defaultValue : String) (options : Options) :
    String × List Comment :=
  let _type := dataType elem options
  let line := columnName_ ++ " " ++ _type
  let line := if elem.primaryKey || !elem.nullable then line ++ " NOT NULL" else line
  let line := if containsSubstr _type "serial" = false then line ++ defaultValue else line
  let comments :=
    if optTruthy elem.documentation then
      comments ++ [{ col := columnName_,
                     doc := asComment (elem.documentation.getD "") }]
    else comments
  (line, comments)

/-! ## User indexes (`getIndexColumns`, `writeUserIndexes` from the source)

The source groups index entries with
`idxDef.reduce((acc, idx) => { (acc[idx.idxName] = acc[idx.idxName] || []).push(idx); return acc; }, [])`
— the accumulator is a JavaScript `Array`, so a group keyed by a name that
is not a canonical array index (the decimal representation of a number
below 2^32 - 1) is stored as a non-index property.  The subsequent
`idxDef.forEach` only visits integer-indexed entries in increasing order,
skipping holes; non-index properties are never visited.  The embedding
reproduces exactly that. -/

/-- `getIndexColumns(elem)` from the source: the columns carrying at least
one `index` tag. -/
def getIndexColumns (elem : Entity) : List Column :=
  elem.columns.filter (fun col => (tagByValue "index" col.tags).isSome)

/-- One entry of the `idxDef` working list in `writeUserIndexes`. -/
structure IdxDef where
  column : String
  idxName : String
  seq : Int
  desc : Bool
deriving DecidableEq, Repr

/-- The flat `idxDef` list: one entry per `index` tag per indexed column, in
column order then tag order, together with the `columnName` diagnostics. -/
def idxDefList (elem : Entity) (options : Options) : List IdxDef × List Toast :=
  (getIndexColumns elem).foldr
    (fun col (acc : List IdxDef × List Toast) =>
      let (colName, ts) := columnName col options
      let entries := (tagsByValue "index" col.tags).map (fun tag =>
        { column := colName, idxName := tag.name, seq := tag.number,
          desc := tag.checked : IdxDef })
      (entries ++ acc.1, ts ++ acc.2))
    ([], [])

/-- Parse a non-empty all-digit character list as a natural number. -/
def digitsToNat? (l : List Char) : Option Nat :=
  if l ≠ [] ∧ l.all Char.isDigit then
    some (l.foldl (fun a c => a * 10 + (c.toNat - 48)) 0)
  else none

/-- A string is a canonical JavaScript array index (the canonical decimal
representation of a number strictly below 2^32 - 1). -/
def canonicalArrayIndex (s : String) : Option Nat :=
  match digitsToNat? s.data with
  | some n => if toString n = s ∧ n < 4294967295 then some n else none
  | none => none

/-- The groups `Array.prototype.forEach` visits after the reduce: for each
integer key from `0` up to the array's length, the entries stored there (in
insertion order), holes skipped.  Groups keyed by non-index names are never
visited. -/
def visitedGroups (defs : List IdxDef) : List (List IdxDef) :=
  let keys := defs.filterMap (fun d => canonicalArrayIndex d.idxName)
  let len := keys.foldl (fun m n => max m (n + 1)) 0
  (List.range len).filterMap (fun k =>
    let g := defs.filter (fun d => canonicalArrayIndex d.idxName = some k)
    if g = [] then none else some g)

/-- Stable insertion of an entry into a seq-sorted list: inserted after all
entries with a smaller-or-equal sequence number (`o.sort` by `seq`; the JS
sort is stable). -/
def insertBySeq (x : IdxDef) : List IdxDef → List IdxDef
  | [] => [x]
  | y :: ys => if y.seq ≤ x.seq then y :: insertBySeq x ys else x :: y :: ys

/-- Stable sort of a group by sequence number. -/
def sortBySeq (l : List IdxDef) : List IdxDef :=
  l.foldl (fun acc x => insertBySeq x acc) []

/-- The lines one visited group contributes (`" -- Index: ..."`, the
`CREATE INDEX` head at the current level and the column list one level
deeper, with `DESC` on descending entries). -/
def indexGroupLines (ind : Nat → String) (tableName_ : String)
    (g : List IdxDef) : List String :=
  let o := sortBySeq g
  let cols := o.map (fun obj => if obj.desc then obj.column ++ " DESC" else obj.column)
  match o with
  | [] => []
  | h :: _ =>
    [ind 0 ++ " -- Index: " ++ h.idxName,
     ind 0 ++ "CREATE INDEX ON " ++ tableName_,
     ind 1 ++ "(" ++ String.intercalate ", " cols ++ ");"]

/-- `writeUserIndexes(codeWriter, tableName, elem, options)` from the
source, as the list of lines it writes plus its diagnostics; it always ends
with a blank line. -/
def writeUserIndexes (ind : Nat → String) (tableName_ : String)
    (elem : Entity) (options : Options) : List String × List Toast :=
  let (defs, ts) := idxDefList elem options
  (((visitedGroups defs).map (indexGroupLines ind tableName_)).flatten ++ [""], ts)

/-! ## Table generation (`generateTable` from the source), section by
section.  The source threads a `codeWriter`/`dropWriter` pair; the embedding
computes the lines each section appends (`ind k` is the indentation one
would get `k` levels below the writer's current level — the source's
`indent()`/`outdent()` calls are statically balanced) and assembles them in
source order. -/

/-- The per-column update the enum-materialization pass performs: when the
mapped type is literally `enum` (case-insensitively) and the column carries
a matching enum string tag, the column's type is rewritten in place to the
generated type name and `is_enum` is set. -/
def enumColUpdate (table : String) (options : Options) (col : Column) : Column :=
  let _type := dataType col options
  if toLowerStr _type = "enum" then
    let enums := stringTag _type col.tags
    if enums ≠ "" then
      let column := (columnName col options).1
      { col with type := table ++ "_" ++ column, is_enum := true }
    else col
  else col

/-- The enum-materialization pass (`// create enums` in the source): the
`CREATE TYPE`/`CREATE CAST` lines it writes, the deferred `DROP TYPE`
statements, the updated columns and the diagnostics, in column order. -/
def createEnums (ind : Nat → String) (table : String) (options : Options) :
    List Column → List String × List String × List Column × List Toast
  | [] => ([], [], [], [])
  | col :: rest =>
    let (ls, ds, c', ts) :=
      let _type := dataType col options
      if toLowerStr _type = "enum" then
        let enums := stringTag _type col.tags
        if enums ≠ "" then
          let (column, cts) := columnName col options
          let typeName := table ++ "_" ++ column
          ([ind 0 ++ "CREATE TYPE " ++ typeName ++ " AS ENUM(" ++ enumAsList enums ++ ");\n",
            ind 0 ++ "CREATE CAST (CHARACTER VARYING AS " ++ typeName ++
              ") WITH INOUT AS IMPLICIT;\n"],
           ["DROP TYPE " ++ typeName ++ " CASCADE;"],
           { col with type := typeName, is_enum := true }, cts)
        else ([], [], col, [])
      else ([], [], col, [])
    let (rls, rds, rcols, rts) := createEnums ind table options rest
    (ls ++ rls, ds ++ rds, c' :: rcols, ts ++ rts)

/-- Accumulators of the `// Columns` loop in `generateTable`. -/
structure ClassifyOut where
  primaryKeys : List String := []
  uniques : List String := []
  foreignKeys : List String := []
  foreignKeyCtr : List Column := []
  lines : List String := []
  comments : List Comment := []
  toasts : List Toast := []
deriving DecidableEq, Repr

/-- The `// Columns` loop of `generateTable`: per column, resolve the name;
when it is non-empty, classify it into primary keys / uniques / plain
foreign keys (an `else if` chain) and, when a foreign-key constraint is
requested and the column has a reference target, queue it for the deferred
constraint section; always (when the name is non-empty) push the column
declaration line. -/
def classifyColumns (options : Options) : List Column → ClassifyOut
  | [] => {}
  | col :: rest =>
    let r := classifyColumns options rest
    let (column, cts) := columnName col options
    let pks := if column ≠ "" && col.primaryKey then [column] else []
    let uns := if column ≠ "" && !col.primaryKey && col.unique then [column] else []
    let fks := if column ≠ "" && !col.primaryKey && !col.unique &&
                  col.foreignKey then [column] else []
    let ctr := if column ≠ "" && options.foreignKeyConstraint &&
                  col.referenceTo.isSome then [col] else []
    let defaultValue := columnDefault col options
    let (line, cmts) := columnDeclaration column col [] defaultValue options
    let lns := if column ≠ "" then [line] else []
    { primaryKeys := pks ++ r.primaryKeys
      uniques := uns ++ r.uniques
      foreignKeys := fks ++ r.foreignKeys
      foreignKeyCtr := ctr ++ r.foreignKeyCtr
      lines := lns ++ r.lines
      comments := (if column ≠ "" then cmts else []) ++ r.comments
      toasts := cts ++ r.toasts }

/-- The `// Write lines` loop: each body entry is written one level deep,
with a trailing comma on every entry but the last. -/
def renderBody (ind1 : String) : List String → List String
  | [] => []
  | l :: rest =>
    (ind1 ++ l ++ (if rest = [] then "" else ",")) :: renderBody ind1 rest

/-- The deferred foreign-key constraint section of `generateTable`: for each
queued column, resolve the referenced column/table/schema (applying the
referenced diagram's own prefix when the referenced entity lives in a
diagram) and produce the `ALTER TABLE ... ADD CONSTRAINT FK_...` statement
pushed onto the shared `refs` accumulator. -/
def fkConstraints (options : Options) (table tableN : String) :
    List Column → List String × List Toast
  | [] => ([], [])
  | col :: rest =>
    let (colName, t1) := columnName col options
    let (here, hts) :=
      match col.referenceTo with
      | none => ([], [])  -- unreachable: only columns with a reference target are queued
      | some refCol =>
        let (refColName, t2) := refColumnNameOf refCol options
        let refTableObj := refCol.parent
        let (rtn, t3) := refTableNameOf refTableObj options
        let refTableName :=
          match refTableObj.parent with
          | RefParent.diagram dtags _ => stringTag "prefix" dtags ++ rtn
          | _ => rtn
        let (refSchemaName, t4) := schemaNameOfRefParent refTableObj.parent
        (["ALTER TABLE " ++ table ++ " ADD CONSTRAINT FK_" ++ tableN ++ "__" ++
            colName ++ " FOREIGN KEY (" ++ colName ++ ") REFERENCES " ++
            refSchemaName ++ "." ++ refTableName ++ "(" ++ refColName ++ ");"],
         t2 ++ t3 ++ t4)
    let (rls, rts) := fkConstraints options table tableN rest
    (here ++ rls, t1 ++ hts ++ rts)

/-- The single-column `CREATE INDEX` lines for plain foreign-key columns,
followed by a blank line when any were generated. -/
def fkIndexLines (ind : Nat → String) (table : String) (fks : List String) :
    List String :=
  if fks = [] then []
  else (fks.map (fun f =>
    [ind 0 ++ "CREATE INDEX ON " ++ table, ind 1 ++ "(" ++ f ++ ");"])).flatten ++ [""]

/-- The queued per-column `COMMENT ON COLUMN` lines. -/
def columnCommentLines (ind : Nat → String) (table : String) :
    List Comment → List String
  | [] => []
  | c :: rest =>
    [ind 0 ++ "COMMENT ON COLUMN " ++ table ++ "." ++ c.col,
     ind 1 ++ "IS " ++ c.doc ++ ";"] ++ columnCommentLines ind table rest

/-- The trigger section of `generateTable`: reference tags whose
doubly-dereferenced target name matches the configured trigger marker emit
a `CREATE TRIGGER` head, the opaque body one level deep, and two blank
lines. -/
def triggersSection (ind : Nat → String) (table tableN : String)
    (options : Options) : List Tag → List String × List Toast
  | [] => ([], [])
  | t :: rest =>
    let (here, hts) :=
      match t.reference with
      | some r =>
        match r.reference with
        | some r2 =>
          if t.kind = TagKind.reference ∧ r2.name = options.trigger then
            let (rn, rts) := routineName t.name options
            ([ind 0 ++ "CREATE TRIGGER " ++ tableN ++ "_" ++ rn ++ "  " ++
                r.value ++ " ON " ++ table,
              ind 1 ++ t.value, "", ""], rts)
          else ([], [])
        | none => ([], [])
      | none => ([], [])
    let (rls, rts) := triggersSection ind table tableN options rest
    (here ++ rls, hts ++ rts)

/-- The `INSERT INTO table ( col1,col2 ) VALUES ( ` prefix shared by every
seed row, built from the columns in declaration order (empty resolved names
included, as in the source), plus the name-resolution diagnostics. -/
def insertIntoPrefix (table : String) (cols : List Column) (options : Options) :
    String × List Toast :=
  let named := cols.map (fun col => columnName col options)
  ("INSERT INTO " ++ table ++ " (" ++
     String.intercalate "," (named.map (fun p => p.1)) ++ " ) VALUES ( ",
   (named.map (fun p => p.2)).flatten)

/-- The VALUES payload of one seed row: for each column position, the quoted
field when it is present and non-empty (JS truthiness), `null` otherwise,
comma-separated. -/
def insertRowFields (data : List String) (colLength : Nat) : String :=
  String.join ((List.range colLength).map (fun i =>
    (match data.get? i with
     | some d => if d ≠ "" then " '" ++ d ++ "' " else " null "
     | none => " null ") ++
    (if i < colLength - 1 then "," else "")))

/-- The seed-insert section of `generateTable` (`// generate inserts`).
When `tableInserts` is enabled the source calls
`elem.documentation.trim()` unconditionally — an absent documentation field
makes that call throw, which the embedding renders as `Except.error`. -/
def insertsSection (ind : Nat → String) (table : String) (options : Options)
    (cols : List Column) (doc : Option String) :
    Except String (List String × List Toast) :=
  if options.tableInserts then
    match doc with
    | none => Except.error "TypeError: Cannot read properties of undefined (reading trim)"
    | some d =>
      let text := trimStr d
      if text.length > 0 then
        let (insertInto, ts) := insertIntoPrefix table cols options
        let insertLines := jsSplit text '\n'
        Except.ok
          ([""] ++ (insertLines.map (fun e =>
             [ind 0 ++ insertInto ++ insertRowFields (jsSplit e '|') cols.length ++ " ); ",
              ""])).flatten ++ [""], ts)
      else Except.ok ([], [])
  else Except.ok ([], [])

/-- Everything `generateTable` produces: the lines appended to the create
writer and the drop writer, the full foreign-key accumulator after the
call, and the diagnostics. -/
structure CoreOut where
  code : List String
  drop : List String
  refs : List String
  toasts : List Toast
deriving DecidableEq, Repr

/-- `generateTable(codeWriter, dropWriter, elem, options, schemaName,
prefix, refs)` from the source, assembled from the sections above in source
order.  `ind`/`dnd` are the indentation schemes of the two writers. -/
def generateTableCore (ind dnd : Nat → String) (elem : Entity)
    (options : Options) (schemaName pfx : String) (refs : List String) :
    Except String CoreOut :=
  let (tn, tnT) := tableName elem options
  let tableN := pfx ++ tn
  let table := schemaName ++ "." ++ tableN
  let (enumLines, dropEnums, cols, enumT) := createEnums ind table options elem.columns
  let cls := classifyColumns options cols
  let lines := if cls.primaryKeys = [] then cls.lines
    else cls.lines ++ ["PRIMARY KEY (" ++ String.intercalate ", " cls.primaryKeys ++ ")"]
  let body := renderBody (ind 1) lines
  let uniqueLines := if cls.uniques = [] then []
    else [ind 0 ++ "ALTER TABLE " ++ table,
          ind 1 ++ "ADD UNIQUE (" ++ String.intercalate ", " cls.uniques ++ ");", ""]
  let (fkRefs, fkT) := fkConstraints options table tableN cls.foreignKeyCtr
  let fkIdx := fkIndexLines ind table cls.foreignKeys
  let (uidx, uidxT) := writeUserIndexes ind table { elem with columns := cols } options
  let docTruthy := optTruthy elem.documentation
  let commentLines :=
    (if docTruthy && !options.tableInserts then
       [ind 0 ++ "COMMENT ON TABLE " ++ table,
        ind 1 ++ "IS " ++ asComment (elem.documentation.getD "") ++ ";"]
     else []) ++ columnCommentLines ind table cls.comments
  let (trig, trigT) := triggersSection ind table tableN options elem.tags
  match insertsSection ind table options cols elem.documentation with
  | Except.error e => Except.error e
  | Except.ok (ins, insT) =>
    let tailLines := if docTruthy = false && cls.comments = [] then [] else [""]
    Except.ok
      { code := enumLines ++ [ind 0 ++ "CREATE TABLE " ++ table ++ " ("] ++ body ++
          [ind 0 ++ ");", ""] ++ uniqueLines ++ fkIdx ++ uidx ++ commentLines ++
          trig ++ ins ++ tailLines
        drop := [dnd 0 ++ "DROP TABLE IF EXISTS " ++ table ++ " CASCADE;"] ++
          dropEnums.map (fun s => dnd 0 ++ s)
        refs := refs ++ fkRefs
        toasts := tnT ++ enumT ++ cls.toasts ++ fkT ++ uidxT ++ trigT ++ insT }

/-- `generateTable` acting on writers: appends the computed lines to the two
writers (their indent levels are unchanged — the source's
`indent()`/`outdent()` calls are balanced). -/
def generateTable (cw dw : CodeWriter) (elem : Entity) (options : Options)
    (schemaName pfx : String) (refs : List String) :
    Except String (CodeWriter × CodeWriter × List String × List Toast) :=
  match generateTableCore cw.indAt dw.indAt elem options schemaName pfx refs with
  | Except.error e => Except.error e
  | Except.ok o =>
    Except.ok ({ cw with lines := cw.lines ++ o.code },
               { dw with lines := dw.lines ++ o.drop }, o.refs, o.toasts)

/-! ## Group generation (`generateTables` from the source) -/

/-- A generated file: path and the lines of its text buffer. -/
abbrev SqlFile := String × List String

/-- The inner loop over a diagram's owned elements: every one is treated as
an entity (the source has no type check there); `refs` is threaded through
unchanged between entities, accumulating foreign-key constraints. -/
def genDiagramEntities (options : Options) (schema pfx : String) :
    List Entity → CodeWriter → CodeWriter → List String → List Toast →
    Except String (CodeWriter × CodeWriter × List String × List Toast)
  | [], cw, dw, refs, ts => Except.ok (cw, dw, refs, ts)
  | entity :: rest, cw, dw, refs, ts =>
    let ts := ts ++ [Toast.info ("Generate table DDL for " ++ entity.name)]
    match generateTable cw dw entity options schema pfx refs with
    | Except.error e => Except.error e
    | Except.ok (cw', dw', refs', ts') =>
      genDiagramEntities options schema pfx rest cw' dw' refs' (ts ++ ts')

/-- The loop body of `generateTables` over a data model's owned elements.
The shared `refs` accumulator is created once per data model and — exactly
as in the source — never reset between diagrams: after each diagram's
entities, the whole accumulator so far is appended to that diagram's create
buffer.  Directly-owned entities go to the flat `table` buffers with their
own `tableRefs` accumulator. -/
def genTablesGo (options : Options) (path schema dataModelName : String) :
    List DMOwned → List String → CodeWriter → CodeWriter → List String →
    List SqlFile → List Toast →
    Except String (List SqlFile × List Toast × CodeWriter × CodeWriter × List String)
  | [], refs, tcw, tdw, tableRefs, files, ts =>
    let _ := refs
    Except.ok (files, ts, tcw, tdw, tableRefs)
  | DMOwned.diagram dname dtags entities :: rest, refs, tcw, tdw, tableRefs, files, ts =>
    let cw := freshWriter options
    let dw := freshWriter options
    let pfx := stringTag "prefix" dtags
    (match genDiagramEntities options schema pfx entities cw dw refs [] with
     | Except.error e => Except.error e
     | Except.ok (cw', dw', refs', ts') =>
       let cw' := { cw' with lines := cw'.lines ++ refs' }
       let files :=
         if cw'.hasContent then
           let diagName := toLowerStr (replaceAll dname " " "_")
           files ++
             [(path ++ "/" ++ dataModelName ++ "_" ++ diagName ++ "_create.sql", cw'.lines)] ++
             (if options.dropStatements then
                [(path ++ "/" ++ dataModelName ++ "_" ++ diagName ++ "_drop.sql", dw'.lines)]
              else [])
         else files
       genTablesGo options path schema dataModelName rest refs' tcw tdw tableRefs
         files (ts ++ ts'))
  | DMOwned.entity entity :: rest, refs, tcw, tdw, tableRefs, files, ts =>
    let ts := ts ++ [Toast.info ("Generate table DDL for " ++ entity.name)]
    (match generateTable tcw tdw entity options schema "" tableRefs with
     | Except.error e => Except.error e
     | Except.ok (tcw', tdw', tableRefs', ts') =>
       genTablesGo options path schema dataModelName rest refs tcw' tdw' tableRefs'
         files (ts ++ ts'))
  | DMOwned.other :: rest, refs, tcw, tdw, tableRefs, files, ts =>
    genTablesGo options path schema dataModelName rest refs tcw tdw tableRefs files ts

/-- `generateTables(elem, path, options, schema, dataModelName)` from the
source, returning the files it writes and its diagnostics. -/
def generateTables (elem : DataModel) (path : String) (options : Options)
    (schema dataModelName : String) : Except String (List SqlFile × List Toast) :=
  let tcw := freshWriter options
  let tdw := freshWriter options
  match genTablesGo options path schema dataModelName elem.ownedElements []
      tcw tdw [] [] [] with
  | Except.error e => Except.error e
  | Except.ok (files, ts, tcw, tdw, tableRefs) =>
    if tcw.hasContent then
      let tcw := { tcw with lines := tcw.lines ++ tableRefs }
      Except.ok (files ++
        [(path ++ "/" ++ dataModelName ++ "_table_create.sql", tcw.lines)] ++
        (if options.dropStatements then
           [(path ++ "/" ++ dataModelName ++ "_table_drop.sql", tdw.lines)]
         else []), ts)
    else Except.ok (files, ts)

/-! ## Routine generation (`generateFunctions`, `generateProcedures`) -/

/-- Shared body of `generateFunctions`/`generateProcedures`: reference tags
on the data model whose first-level reference name matches the given marker
emit two blank lines, the `CREATE OR REPLACE` head and the opaque body, and
a matching drop statement. -/
def routineLines (kindWord marker : String) :
    List Tag → List String × List String × List Toast
  | [] => ([], [], [])
  | t :: rest =>
    let (here, dhere, ts) :=
      match t.reference with
      | some r =>
        if t.kind = TagKind.reference ∧ r.name = marker then
          (["", "", "CREATE OR REPLACE " ++ kindWord ++ " " ++ t.name ++ " ", t.value],
           ["DROP " ++ kindWord ++ " IF EXISTS " ++ t.name ++ " () CASCADE;"],
           [Toast.info ("Generate " ++ toLowerStr kindWord ++ " DDL for " ++ t.name)])
        else ([], [], [])
      | none => ([], [], [])
    let (rls, rds, rts) := routineLines kindWord marker rest
    (here ++ rls, dhere ++ rds, ts ++ rts)

/-- `generateFunctions(elem, path, options, schema, dataModelName)` from the
source. -/
def generateFunctions (elem : DataModel) (path : String) (options : Options)
    (_schema dataModelName : String) : List SqlFile × List Toast :=
  let (ls, ds, ts) := routineLines "FUNCTION" options.function elem.tags
  (if ls ≠ [] then
     [(path ++ "/" ++ dataModelName ++ "_function_create.sql", ls)] ++
     (if options.dropStatements then
        [(path ++ "/" ++ dataModelName ++ "_function_drop.sql", ds)]
      else [])
   else [], ts)

/-- `generateProcedures(elem, path, options, schema, dataModelName)` from
the source. -/
def generateProcedures (elem : DataModel) (path : String) (options : Options)
    (_schema dataModelName : String) : List SqlFile × List Toast :=
  let (ls, ds, ts) := routineLines "PROCEDURE" options.procedure elem.tags
  (if ls ≠ [] then
     [(path ++ "/" ++ dataModelName ++ "_procedure_create.sql", ls)] ++
     (if options.dropStatements then
        [(path ++ "/" ++ dataModelName ++ "_procedure_drop.sql", ds)]
      else [])
   else [], ts)

/-! ## Schema generation (`generateSchema`) -/

/-- The `CREATE SCHEMA`/`COMMENT ON SCHEMA` lines one data model contributes
when its schema is not `public` and not yet emitted (`ind k` is the schema
writer's indentation, level 0 based). -/
def schemaBlockLines (ind : Nat → String) (options : Options)
    (e : DataModel) (schemaName : String) : List String :=
  [ind 0 ++ "-- Schema for: " ++ e.name,
   ind 0 ++ "CREATE SCHEMA " ++ schemaName,
   ind 1 ++ "AUTHORIZATION " ++ options.owner ++ ";"] ++
  (match e.documentation with
   | some d =>
     if d ≠ "" then
       ["", ind 0 ++ "COMMENT ON SCHEMA " ++ schemaName,
        ind 1 ++ "IS " ++ asComment d ++ ";"]
     else []
   | none => [])

/-- The loop of `generateSchema` over the top element's owned elements:
per data model, run the function/procedure/table generators and collect the
schema-creation block for new non-public schemas. -/
def genSchemaGo (options : Options) (path : String) (ind : Nat → String) :
    List TopOwned → List String → List String → List String → List SqlFile → List Toast →
    Except String (List String × List String × List SqlFile × List Toast)
  | [], _schemas, cLines, dLines, files, ts => Except.ok (cLines, dLines, files, ts)
  | TopOwned.dataModel e :: rest, schemas, cLines, dLines, files, ts =>
    let (sn, snT) := schemaNameOfTags e.tags
    let schemaName := toLowerStr sn
    let dataModelName := toLowerStr (replaceAll e.name " " "_")
    let (fFiles, fT) := generateFunctions e path options schemaName dataModelName
    let (pFiles, pT) := generateProcedures e path options schemaName dataModelName
    (match generateTables e path options schemaName dataModelName with
     | Except.error err => Except.error err
     | Except.ok (tFiles, tT) =>
       let fresh := schemaName ≠ "public" && !(schemas.contains schemaName)
       genSchemaGo options path ind rest
         (if fresh then schemas ++ [schemaName] else schemas)
         (cLines ++ (if fresh then schemaBlockLines ind options e schemaName else []))
         (dLines ++ (if fresh then [ind 0 ++ "DROP SCHEMA " ++ schemaName ++ ";"] else []))
         (files ++ fFiles ++ pFiles ++ tFiles)
         (ts ++ snT ++ fT ++ pT ++ tT))
  | TopOwned.other :: rest, schemas, cLines, dLines, files, ts =>
    genSchemaGo options path ind rest schemas cLines dLines files ts

/-- `generateSchema(elem, path, options)` from the source: walks the owned
data models (no check on the top element's own type) and finally writes the
`schema_create.sql`/`schema_drop.sql` pair when anything was collected. -/
def generateSchema (elem : TopElem) (path : String) (options : Options) :
    Except String (List SqlFile × List Toast) :=
  let ind := fun k => strRepeat (getIndentString options) k
  match genSchemaGo options path ind elem.ownedElements [] [] [] [] [] with
  | Except.error e => Except.error e
  | Except.ok (cLines, dLines, files, ts) =>
    if cLines ≠ [] then
      Except.ok (files ++ [(path ++ "/schema_create.sql", cLines)] ++
        (if options.dropStatements then [(path ++ "/schema_drop.sql", dLines)] else []), ts)
    else Except.ok (files, ts)

/-! ## Database generation and the top-level `generate` -/

/-- `generateDatabase(elem, path, options)` from the source.  Returns
whether it succeeded, the files it writes and its diagnostics.  (The
source's `addStringTag` write-back of the defaulted database name mutates
the model graph; nothing in the module reads that tag afterwards, so the
write-back has no effect on the generated output and is not modelled.) -/
def generateDatabase (elem : TopElem) (path : String) (options : Options) :
    Bool × List SqlFile × List Toast :=
  if elem.isProject then
    let ind := fun k => strRepeat (getIndentString options) k
    let dbName := match tagLookup "database" elem.tags with
      | some t => t.value
      | none => ""
    let dbName := if dbName = "" then replaceAll elem.name " " "_" else dbName
    if !(isValidIdentifier dbName) then
      (false, [], [Toast.warning ("Database name is not valid: " ++ dbName ++
        ", please edit the database tag for " ++ elem.name)])
    else
      let cLines :=
        [ind 0 ++ "-- Database: " ++ elem.name,
         ind 0 ++ "-- Author: " ++ elem.author,
         ind 0 ++ "CREATE DATABASE " ++ toLowerStr dbName,
         ind 1 ++ "WITH OWNER = " ++ options.owner,
         ind 2 ++ "ENCODING = '" ++ options.encoding ++ "'",
         ind 2 ++ "TABLESPACE = " ++ options.tablespace] ++
        (if options.collation ≠ "default" then
           [ind 2 ++ "LC_COLLATE = '" ++ options.collation ++ "'",
            ind 2 ++ "LC_CTYPE = '" ++ options.collation ++ "'"]
         else []) ++
        [ind 2 ++ "CONNECTION LIMIT = -1;"] ++
        (match elem.documentation with
         | some d =>
           if d ≠ "" then
             ["", ind 0 ++ "COMMENT ON DATABASE " ++ toLowerStr dbName,
              ind 1 ++ "IS " ++ asComment d ++ ";"]
           else []
         | none => [])
      (true,
       [(path ++ "/db_create.sql", cLines)] ++
       (if options.dropStatements then
          [(path ++ "/db_drop.sql", ["DROP DATABASE " ++ toLowerStr dbName ++ ";"])]
        else []),
       [])
  else
    (false, [], [Toast.error "No project found, database DDL generator expects a main project"])

/-- `generate(elem, path, options)` from the source: run the database
generator, then — unconditionally — the schema generator (the `if` around
`generateDatabase`'s result only gates the success toast); exceptions are
caught at this level and reported as a dialog error.  (Files flushed before
a thrown exception persist on disk in the source; the error path of this
embedding does not model those partial files — no claim observes them.) -/
def generate (elem : TopElem) (path : String) (options : Options) :
    List SqlFile × List Toast :=
  let (ok, dbFiles, dbT) := generateDatabase elem path options
  let t1 := dbT ++ (if ok then [Toast.info "Database creation files completed."] else [])
  match generateSchema elem path options with
  | Except.ok (sFiles, sT) =>
    (dbFiles ++ sFiles,
     t1 ++ sT ++ [Toast.dialogInfo ("Project DDL files generated in " ++ path)])
  | Except.error ex =>
    (dbFiles, t1 ++ [Toast.dialogError ("Project generation failed: " ++ ex)])

/-- Extract the success value of an `Except`. -/
def getOk {α : Type} : Except String α → Option α
  | Except.ok a => some a
  | Except.error _ => none

instance {ε α : Type} [DecidableEq ε] [DecidableEq α] : DecidableEq (Except ε α) :=
  fun a b =>
    match a, b with
    | Except.ok x, Except.ok y => decidable_of_iff (x = y) (by simp)
    | Except.error x, Except.error y => decidable_of_iff (x = y) (by simp)
    | Except.ok _, Except.error _ => isFalse (by simp)
    | Except.error _, Except.ok _ => isFalse (by simp)

/-! ## Concrete model instances used by the claim theorems -/

/-- Default options with a one-space indent. -/
def optsBase : Options := { indentSpaces := 1 }

/-- Options with seed-insert mode enabled. -/
def optsIns : Options := { optsBase with tableInserts := true }

/-- The indentation scheme of a fresh writer under `optsBase`. -/
def indSp : Nat → String := (freshWriter optsBase).indAt

/-- Column `A`, tagged into composite index `idx1` with sequence 2,
ascending (the claim C2 scenario). -/
def colIdxA : Column :=
  { name := "A", type := "VARCHAR", length := some 10,
    tags := [{ name := "idx1", value := "index", number := 2, checked := false }] }

/-- Column `B`, tagged into composite index `idx1` with sequence 1,
descending. -/
def colIdxB : Column :=
  { name := "B", type := "VARCHAR", length := some 10,
    tags := [{ name := "idx1", value := "index", number := 1, checked := true }] }

/-- The claim C2 entity: two columns in the composite index `idx1`. -/
def eIdx : Entity := { name := "t", columns := [colIdxA, colIdxB] }

/-- A two-column `(name, age)` entity with seed documentation
`"Alice|30\nBob|"` (the claim C8 scenario). -/
def ePerson : Entity :=
  { name := "person",
    documentation := some "Alice|30\nBob|",
    columns := [{ name := "name", type := "VARCHAR", length := some 40 },
                { name := "age", type := "INTEGER" }] }

/-- The claim C4 entity: display name `"Order Item!"`, no table tag. -/
def eOrderItem : Entity :=
  { name := "Order Item!",
    columns := [{ name := "id", type := "INTEGER", nullable := false,
                  primaryKey := true }] }

/-- A sibling entity with a valid name. -/
def eCustomer : Entity :=
  { name := "customer",
    columns := [{ name := "id", type := "INTEGER", nullable := false,
                  primaryKey := true }] }

/-- A data model owning one diagram with the invalid-name entity and a
valid sibling. -/
def dmC4 : DataModel :=
  { name := "dm", ownedElements := [DMOwned.diagram "d1" [] [eOrderItem, eCustomer]] }

/-- The referenced entity `b` (its column `id`), living in a prefix-less
diagram of a schema-less data model. -/
def refB : RefColumn :=
  { name := "id",
    parent := { name := "b", parent := RefParent.diagram [] (some []) } }

/-- Entity `a` with a foreign-key-constrained column referencing `b.id`. -/
def entA : Entity :=
  { name := "a",
    columns := [{ name := "bid", type := "INTEGER", foreignKey := true,
                  referenceTo := some refB }] }

/-- Entity `b`. -/
def entB : Entity :=
  { name := "b",
    columns := [{ name := "id", type := "INTEGER", nullable := false,
                  primaryKey := true }] }

/-- The claim C1 data model: two diagrams, the first containing the
FK-constrained entity, the second an unrelated entity. -/
def dmLeak : DataModel :=
  { name := "dm",
    ownedElements := [DMOwned.diagram "d1" [] [entA],
                      DMOwned.diagram "d2" [] [entB]] }

/-- The foreign-key constraint statement entity `a` contributes. -/
def fkLeakLine : String :=
  "ALTER TABLE public.a ADD CONSTRAINT FK_a__bid FOREIGN KEY (bid) REFERENCES public.b(id);"

/-- The direct entity `t` of the data model below. -/
def entT : Entity :=
  { name := "t",
    columns := [{ name := "id", type := "INTEGER", nullable := false,
                  primaryKey := true }] }

/-- A data model owning one direct entity `t`. -/
def dmSimple : DataModel :=
  { name := "m", ownedElements := [DMOwned.entity entT] }

/-- The claim C5 top-level element: not a project, but owning a data
model. -/
def topNP : TopElem :=
  { isProject := false, name := "x", ownedElements := [TopOwned.dataModel dmSimple] }

/-- The claim C7 counterexample entity: its only column is flagged primary
key but its name fails identifier validation. -/
def ePkBad : Entity :=
  { name := "t",
    columns := [{ name := "id!", type := "INTEGER", primaryKey := true }] }

/-- The claim C9 counterexample entity: its only column is flagged unique
but its name fails identifier validation. -/
def eUqBad : Entity :=
  { name := "t",
    columns := [{ name := "id", type := "INTEGER", primaryKey := true },
                { name := "u!", type := "INTEGER", unique := true }] }

/-- The claim C10 entity: no documentation at all. -/
def eNoDoc : Entity :=
  { name := "t", documentation := none,
    columns := [{ name := "id", type := "INTEGER" }] }

/-- An auto-increment column (`INTEGER` with sentinel length `-1`) carrying
a `default` tag (claim C6 witness). -/
def cSerialDef : Column :=
  { name := "id", type := "INTEGER", length := some (-1),
    tags := [{ name := "default", value := "42" }] }

/-- A plain integer column carrying a `default` tag. -/
def cPlainDef : Column :=
  { name := "n", type := "INTEGER",
    tags := [{ name := "default", value := "42" }] }

/-- An `INTEGER` column with the auto-increment sentinel length (claim C3
witness). -/
def cIntM1 : Column := { name := "id", type := "INTEGER", length := some (-1) }

/-- A column whose abstract type is the literal string `serial` — not a
recognized mapping-table key — with a length that is not the `-1`
sentinel (claim C3 counterexample: the mapper passes it through
verbatim). -/
def cSerialPassthrough : Column :=
  { name := "x", type := "serial", length := some 5 }

/-- A line is an `INSERT` statement line (starts with `INSERT INTO `). -/
def isInsertLine (l : String) : Bool :=
  l.toList.take 12 == "INSERT INTO ".toList

/-- An entity with two unique non-primary-key columns and a column that is
both primary key and unique (claim C9 witness). -/
def eUqGood : Entity :=
  { name := "t",
    columns := [{ name := "k", type := "INTEGER", nullable := false,
                  primaryKey := true, unique := true },
                { name := "a", type := "INTEGER", unique := true },
                { name := "b", type := "INTEGER", unique := true }] }

/-! ## Helper lemmas -/

/-- A string starting with prefix `t` differs from any literal whose first
`t.length` characters differ from `t`. -/
theorem append_ne_of_take_ne (t r lit : String)
    (h : lit.toList.take t.toList.length ≠ t.toList) : t ++ r ≠ lit := by
  intro e
  apply h
  rw [← e]
  show (t.toList ++ r.toList).take t.toList.length = t.toList
  exact List.take_left _ _

/-- A string starting with a prefix that matches none of the three
auto-increment spellings is not an auto-increment spelling. -/
theorem isSerial_append_false (t r : String)
    (h1 : "serial".toList.take t.toList.length ≠ t.toList)
    (h2 : "smallserial".toList.take t.toList.length ≠ t.toList)
    (h3 : "bigserial".toList.take t.toList.length ≠ t.toList) :
    isSerialSpelling (t ++ r) = false := by
  simp only [isSerialSpelling, Bool.or_eq_false_iff, decide_eq_false_iff_not]
  exact ⟨⟨append_ne_of_take_ne t r _ h1, append_ne_of_take_ne t r _ h2⟩,
         append_ne_of_take_ne t r _ h3⟩

/-- Common shape of the non-integer cases of the C3 theorem. -/
theorem dataType_nonint_case (c : Column) (opts : Options) (tk : String)
    (h : c.type = tk)
    (hne1 : tk ≠ "INTEGER") (hne2 : tk ≠ "SMALLINT") (hne3 : tk ≠ "BIGINT")
    (hf : isSerialSpelling (dataType c opts) = false) :
    (isSerialSpelling (dataType c opts) = true ↔
      ((c.type = "INTEGER" ∨ c.type = "SMALLINT" ∨ c.type = "BIGINT") ∧
        c.length = some (-1)))
    ∧ (c.type = "INTEGER" → c.length ≠ some (-1) → dataType c opts = "integer")
    ∧ (c.type = "SMALLINT" → c.length ≠ some (-1) → dataType c opts = "smallint")
    ∧ (c.type = "BIGINT" → c.length ≠ some (-1) → dataType c opts = "bigint") := by
  refine ⟨?_, ?_, ?_, ?_⟩
  · rw [hf]
    simp [h, hne1, hne2, hne3]
  · intro hI
    exact absurd (h ▸ hI) hne1
  · intro hI
    exact absurd (h ▸ hI) hne2
  · intro hI
    exact absurd (h ▸ hI) hne3

/-- Common shape of the three integer cases of the C3 theorem. -/
theorem dataType_int_case (c : Column) (opts : Options)
    (tk plain ser : String) (h : c.type = tk)
    (hd : dataType c opts = typeOfWithOverride plain ser noLenFunc c)
    (hser : isSerialSpelling (ser ++ "") = true)
    (hplain : isSerialSpelling (plain ++ "") = false)
    (hint : tk = "INTEGER" ∨ tk = "SMALLINT" ∨ tk = "BIGINT") :
    (isSerialSpelling (dataType c opts) = true ↔
      ((c.type = "INTEGER" ∨ c.type = "SMALLINT" ∨ c.type = "BIGINT") ∧
        c.length = some (-1)))
    ∧ (c.length ≠ some (-1) → dataType c opts = plain) := by
  constructor
  · by_cases hl : c.length = some (-1)
    · have hdt : dataType c opts = ser ++ "" := by
        rw [hd]
        simp [typeOfWithOverride, hl, noLenFunc]
      rw [hdt, hser]
      exact ⟨fun _ => ⟨by rw [h]; exact hint, hl⟩, fun _ => rfl⟩
    · have hdt : dataType c opts = plain ++ "" := by
        rw [hd]
        simp [typeOfWithOverride, hl, noLenFunc]
      rw [hdt, hplain]
      constructor
      · intro habs
        exact absurd habs Bool.false_ne_true
      · intro hrhs
        exact absurd hrhs.2 hl
  · intro hl
    rw [hd]
    simp [typeOfWithOverride, hl, noLenFunc]

/-! ## Claim theorems -/

/-- C3 (counterexample): an abstract type outside the mapping table is
passed through verbatim, so a column whose type string is literally
`serial` maps to an auto-increment spelling even though it is not one of
the three integer kinds and its length is not the `-1` sentinel — refuting
the unrestricted "no other abstract type ever maps to an auto-increment
spelling". -/
theorem dataType_passthrough_serial :
    cSerialPassthrough.type ∉ ["INTEGER", "SMALLINT", "BIGINT"] ∧
    cSerialPassthrough.length ≠ some (-1) ∧
    isSerialSpelling (dataType cSerialPassthrough optsBase) = true := by
  decide

/-- C3 (amended): for every column whose abstract type is one of the
recognized mapping-table keys, the type mapper returns an auto-increment
spelling (`serial`, `smallserial`, `bigserial`) exactly when the type is
one of the three integer kinds and the length is the sentinel `-1`; for
the integer kinds with any other length (including an absent one) it
returns the plain type; no other recognized abstract type ever maps to an
auto-increment spelling.  (Unrecognized abstract types are passed through
verbatim — see the counterexample above.) -/
theorem dataType_serial_characterization (c : Column) (opts : Options)
    (h : c.type ∈ recognizedTypeKeys) :
    (isSerialSpelling (dataType c opts) = true ↔
      ((c.type = "INTEGER" ∨ c.type = "SMALLINT" ∨ c.type = "BIGINT") ∧
        c.length = some (-1)))
    ∧ (c.type = "INTEGER" → c.length ≠ some (-1) → dataType c opts = "integer")
    ∧ (c.type = "SMALLINT" → c.length ≠ some (-1) → dataType c opts = "smallint")
    ∧ (c.type = "BIGINT" → c.length ≠ some (-1) → dataType c opts = "bigint") := by
  simp only [recognizedTypeKeys, List.mem_cons, List.not_mem_nil, or_false] at h
  rcases h with h|h|h|h|h|h|h|h|h|h|h|h|h|h|h|h|h|h|h|h|h|h|h|h
  · refine dataType_nonint_case c opts _ h (by decide) (by decide) (by decide) ?_
    rw [show dataType c opts = "varchar" ++ varLenFunc c from by simp [dataType, h, typeOf]]
    exact isSerial_append_false _ _ (by decide) (by decide) (by decide)
  · refine dataType_nonint_case c opts _ h (by decide) (by decide) (by decide) ?_
    rw [show dataType c opts = "boolean" ++ noLenFunc c from by simp [dataType, h, typeOf]]
    exact isSerial_append_false _ _ (by decide) (by decide) (by decide)
  · -- INTEGER
    have hd : dataType c opts = typeOfWithOverride "integer" "serial" noLenFunc c := by
      simp [dataType, h]
    have res := dataType_int_case c opts "INTEGER" "integer" "serial" h hd
      (by decide) (by decide) (by decide)
    exact ⟨res.1, fun _ hl => res.2 hl,
      fun hI => absurd (h.symm.trans hI) (by decide),
      fun hI => absurd (h.symm.trans hI) (by decide)⟩
  · refine dataType_nonint_case c opts _ h (by decide) (by decide) (by decide) ?_
    rw [show dataType c opts = "char" ++ varLenFunc c from by simp [dataType, h, typeOf]]
    exact isSerial_append_false _ _ (by decide) (by decide) (by decide)
  · refine dataType_nonint_case c opts _ h (by decide) (by decide) (by decide) ?_
    rw [show dataType c opts = "bytea" ++ noLenFunc c from by simp [dataType, h, typeOf]]
    exact isSerial_append_false _ _ (by decide) (by decide) (by decide)
  · refine dataType_nonint_case c opts _ h (by decide) (by decide) (by decide) ?_
    rw [show dataType c opts = "bytea" ++ noLenFunc c from by simp [dataType, h, typeOf]]
    exact isSerial_append_false _ _ (by decide) (by decide) (by decide)
  · refine dataType_nonint_case c opts _ h (by decide) (by decide) (by decide) ?_
    rw [show dataType c opts = "bytea" ++ noLenFunc c from by simp [dataType, h, typeOf]]
    exact isSerial_append_false _ _ (by decide) (by decide) (by decide)
  · refine dataType_nonint_case c opts _ h (by decide) (by decide) (by decide) ?_
    rw [show dataType c opts = "text" ++ noLenFunc c from by simp [dataType, h, typeOf]]
    exact isSerial_append_false _ _ (by decide) (by decide) (by decide)
  · -- SMALLINT
    have hd : dataType c opts = typeOfWithOverride "smallint" "smallserial" noLenFunc c := by
      simp [dataType, h]
    have res := dataType_int_case c opts "SMALLINT" "smallint" "smallserial" h hd
      (by decide) (by decide) (by decide)
    exact ⟨res.1, fun hI => absurd (h.symm.trans hI) (by decide),
      fun _ hl => res.2 hl,
      fun hI => absurd (h.symm.trans hI) (by decide)⟩
  · -- BIGINT
    have hd : dataType c opts = typeOfWithOverride "bigint" "bigserial" noLenFunc c := by
      simp [dataType, h]
    have res := dataType_int_case c opts "BIGINT" "bigint" "bigserial" h hd
      (by decide) (by decide) (by decide)
    exact ⟨res.1, fun hI => absurd (h.symm.trans hI) (by decide),
      fun hI => absurd (h.symm.trans hI) (by decide),
      fun _ hl => res.2 hl⟩
  · refine dataType_nonint_case c opts _ h (by decide) (by decide) (by decide) ?_
    rw [show dataType c opts = "numeric" ++ varLenFunc c from by simp [dataType, h, typeOf]]
    exact isSerial_append_false _ _ (by decide) (by decide) (by decide)
  · refine dataType_nonint_case c opts _ h (by decide) (by decide) (by decide) ?_
    rw [show dataType c opts = "numeric" ++ varLenFunc c from by simp [dataType, h, typeOf]]
    exact isSerial_append_false _ _ (by decide) (by decide) (by decide)
  · refine dataType_nonint_case c opts _ h (by decide) (by decide) (by decide) ?_
    rw [show dataType c opts = "real" ++ noLenFunc c from by simp [dataType, h, typeOf]]
    exact isSerial_append_false _ _ (by decide) (by decide) (by decide)
  · refine dataType_nonint_case c opts _ h (by decide) (by decide) (by decide) ?_
    rw [show dataType c opts = "double precision" ++ noLenFunc c from by
      simp [dataType, h, typeOf]]
    exact isSerial_append_false _ _ (by decide) (by decide) (by decide)
  · refine dataType_nonint_case c opts _ h (by decide) (by decide) (by decide) ?_
    rw [show dataType c opts = "bit" ++ varLenFunc c from by simp [dataType, h, typeOf]]
    exact isSerial_append_false _ _ (by decide) (by decide) (by decide)
  · refine dataType_nonint_case c opts _ h (by decide) (by decide) (by decide) ?_
    rw [show dataType c opts = "date" ++ noLenFunc c from by simp [dataType, h, typeOf]]
    exact isSerial_append_false _ _ (by decide) (by decide) (by decide)
  · refine dataType_nonint_case c opts _ h (by decide) (by decide) (by decide) ?_
    rw [show dataType c opts = "time without time zone" ++ noLenFunc c from by
      simp [dataType, h, typeOf]]
    exact isSerial_append_false _ _ (by decide) (by decide) (by decide)
  · refine dataType_nonint_case c opts _ h (by decide) (by decide) (by decide) ?_
    rw [show dataType c opts = "timestamp with time zone" ++ noLenFunc c from by
      simp [dataType, h, typeOf]]
    exact isSerial_append_false _ _ (by decide) (by decide) (by decide)
  · refine dataType_nonint_case c opts _ h (by decide) (by decide) (by decide) ?_
    rw [show dataType c opts = "timestamp with time zone" ++ noLenFunc c from by
      simp [dataType, h, typeOf]]
    exact isSerial_append_false _ _ (by decide) (by decide) (by decide)
  · refine dataType_nonint_case c opts _ h (by decide) (by decide) (by decide) ?_
    rw [show dataType c opts = "timestamp without time zone" ++ noLenFunc c from by
      simp [dataType, h, typeOf]]
    exact isSerial_append_false _ _ (by decide) (by decide) (by decide)
  · refine dataType_nonint_case c opts _ h (by decide) (by decide) (by decide) ?_
    rw [show dataType c opts = "point" ++ noLenFunc c from by simp [dataType, h, typeOf]]
    exact isSerial_append_false _ _ (by decide) (by decide) (by decide)
  · refine dataType_nonint_case c opts _ h (by decide) (by decide) (by decide) ?_
    rw [show dataType c opts = "polygon" ++ noLenFunc c from by simp [dataType, h, typeOf]]
    exact isSerial_append_false _ _ (by decide) (by decide) (by decide)
  · refine dataType_nonint_case c opts _ h (by decide) (by decide) (by decide) ?_
    rw [show dataType c opts = "cidr" ++ noLenFunc c from by simp [dataType, h, typeOf]]
    exact isSerial_append_false _ _ (by decide) (by decide) (by decide)
  · refine dataType_nonint_case c opts _ h (by decide) (by decide) (by decide) ?_
    rw [show dataType c opts = "inet" ++ noLenFunc c from by simp [dataType, h, typeOf]]
    exact isSerial_append_false _ _ (by decide) (by decide) (by decide)

/-- Witness for C3: the `INTEGER` column with sentinel length `-1` is in
the recognized key set and maps to an auto-increment spelling. -/
theorem dataType_serial_characterization_witness :
    cIntM1.type ∈ recognizedTypeKeys ∧
    (isSerialSpelling (dataType cIntM1 optsBase) = true ↔
      ((cIntM1.type = "INTEGER" ∨ cIntM1.type = "SMALLINT" ∨ cIntM1.type = "BIGINT") ∧
        cIntM1.length = some (-1))) :=
  ⟨by decide, (dataType_serial_characterization cIntM1 optsBase (by decide)).1⟩

/-- C1 (code-bug evidence): in a data model with two diagrams, the
foreign-key `ALTER TABLE ... ADD CONSTRAINT` accumulated while generating
the first diagram's entity is appended to the first diagram's create buffer
*and again* to the second diagram's create buffer — the `refs` accumulator
is never reset between diagrams. -/
theorem generateTables_fk_refs_leak :
    (getOk (generateTables dmLeak "" optsBase "public" "dm")).map
      (fun r => r.1.map (fun f => (f.1, f.2.contains fkLeakLine))) =
    some [("/dm_d1_create.sql", true), ("/dm_d2_create.sql", true)] := by
  decide

/-- C2 (code-bug evidence): for two columns tagged into the composite index
`idx1` (sequences 2 and 1, the latter descending), `writeUserIndexes` emits
no `CREATE INDEX` at all — only its trailing blank line — although both
columns do carry `index` tags; the group keyed by the non-numeric name
`idx1` is stored as a non-index property of the JS array accumulator and
`forEach` never visits it. -/
theorem writeUserIndexes_drops_nonnumeric_group :
    writeUserIndexes indSp "public.t" eIdx optsBase = ([""], []) ∧
    tagsByValue "index" colIdxA.tags ≠ [] ∧
    tagsByValue "index" colIdxB.tags ≠ [] := by
  decide

/-- C4 (counterexample): for the entity named `"Order Item!"` (no table
tag), the error diagnostic is emitted but a table statement *is* still
produced — a malformed `CREATE TABLE public. (` with an empty table
name — so "produces no table statement for that entity" fails. -/
theorem invalidTableName_still_emits_create :
    (getOk (generateTableCore indSp indSp eOrderItem optsBase "public" "" [])).map
      (fun o => (o.code.contains "CREATE TABLE public. (",
        o.toasts.contains (Toast.error
          "Table name is not valid: Order_Item!, please edit the table tag for Order Item!"))) =
    some (true, true) := by
  decide

/-- C4 (amended): for a diagram containing the `"Order Item!"` entity and a
valid sibling, the error diagnostic is emitted, the invalid entity yields a
malformed `CREATE TABLE public. (` statement with an empty table name, and
the sibling still generates successfully in the same buffer. -/
theorem invalidTableName_diagnostic_and_siblings :
    (getOk (generateTables dmC4 "" optsBase "public" "dm")).map
      (fun r =>
        (r.2.contains (Toast.error
          "Table name is not valid: Order_Item!, please edit the table tag for Order Item!"),
         r.1.map (fun f => (f.1, f.2.contains "CREATE TABLE public. (",
           f.2.contains "CREATE TABLE public.customer (")))) =
    some (true, [("/dm_d1_create.sql", true, true)]) := by
  decide

/-- C5 (counterexample): handing a non-project element that owns a data
model to `generate` reports the error — but the run does *not* abort:
table generation still happens and produces the data model's create
file. -/
theorem generate_nonProject_still_generates_tables :
    (generate topNP "" optsBase).2.contains
        (Toast.error "No project found, database DDL generator expects a main project") = true ∧
    (generate topNP "" optsBase).1.map
        (fun f => (f.1, f.2.contains "CREATE TABLE public.t (")) =
      [("/m_table_create.sql", true)] := by
  decide

/-- C5 (amended): when the top-level element is not a project, the
condition is reported as an error and database DDL generation is skipped,
but the run continues: `generateSchema` still runs, so the generated files
are exactly those of the schema/function/procedure/table generators. -/
theorem generate_nonProject_run_continues (elem : TopElem) (path : String)
    (opts : Options) (h : elem.isProject = false) :
    (generate elem path opts).2.contains
        (Toast.error "No project found, database DDL generator expects a main project") = true ∧
    (generate elem path opts).1 =
      (match generateSchema elem path opts with
       | Except.ok r => r.1
       | Except.error _ => []) := by
  unfold generate generateDatabase
  rw [h]
  cases hs : generateSchema elem path opts with
  | ok r => simp
  | error e => simp

/-- Witness for C5's amended theorem at the concrete non-project input. -/
theorem generate_nonProject_run_continues_witness :
    topNP.isProject = false ∧
    ((generate topNP "" optsBase).2.contains
        (Toast.error "No project found, database DDL generator expects a main project") = true ∧
     (generate topNP "" optsBase).1 =
      (match generateSchema topNP "" optsBase with
       | Except.ok r => r.1
       | Except.error _ => [])) :=
  ⟨rfl, generate_nonProject_run_continues topNP "" optsBase rfl⟩

/-- C10: with seed-insert mode enabled and an absent documentation field,
`generateTable` throws while building the insert statements (the error
branch is reachable), whereas the same entity with present-but-empty
documentation generates fine. -/
theorem generateTable_inserts_throw_on_missing_documentation :
    generateTableCore indSp indSp eNoDoc optsIns "public" "" [] =
      Except.error "TypeError: Cannot read properties of undefined (reading trim)" ∧
    (getOk (generateTableCore indSp indSp { eNoDoc with documentation := some "" }
      optsIns "public" "" [])).isSome = true := by
  decide

/-- C6: the rendered column declaration line appends the `DEFAULT` clause
exactly when the mapped type does not contain the substring `serial`; in
particular a serial column's line is identical to the one rendered with no
default at all, and a non-serial column with a `default` tag gets
` DEFAULT <value>` appended. -/
theorem columnDeclaration_default_suppression (name : String) (c : Column)
    (cm : List Comment) (opts : Options) :
    (containsSubstr (dataType c opts) "serial" = true →
      (columnDeclaration name c cm (columnDefault c opts) opts).1 =
      (columnDeclaration name c cm "" opts).1)
    ∧ (containsSubstr (dataType c opts) "serial" = false →
      (columnDeclaration name c cm (columnDefault c opts) opts).1 =
      (columnDeclaration name c cm "" opts).1 ++ columnDefault c opts)
    ∧ (∀ t, tagLookup "default" c.tags = some t →
        columnDefault c opts = " DEFAULT " ++ t.value) := by
  refine ⟨?_, ?_, ?_⟩
  · intro h
    simp [columnDeclaration, h]
  · intro h
    simp [columnDeclaration, h]
  · intro t ht
    simp [columnDefault, ht]

/-- Witness for C6: the serial column with a `default` tag renders without
the `DEFAULT` clause, and the plain column's clause is ` DEFAULT 42`. -/
theorem columnDeclaration_default_suppression_witness :
    (containsSubstr (dataType cSerialDef optsBase) "serial" = true ∧
      (columnDeclaration "id" cSerialDef [] (columnDefault cSerialDef optsBase) optsBase).1 =
      (columnDeclaration "id" cSerialDef [] "" optsBase).1) ∧
    (containsSubstr (dataType cPlainDef optsBase) "serial" = false ∧
      (columnDeclaration "n" cPlainDef [] (columnDefault cPlainDef optsBase) optsBase).1 =
      (columnDeclaration "n" cPlainDef [] "" optsBase).1 ++ columnDefault cPlainDef optsBase) :=
  ⟨⟨by decide,
    (columnDeclaration_default_suppression "id" cSerialDef [] optsBase).1 (by decide)⟩,
   ⟨by decide,
    (columnDeclaration_default_suppression "n" cPlainDef [] optsBase).2.1 (by decide)⟩⟩

/-- String append acts as append on the character lists. -/
theorem toList_append (s t : String) : (s ++ t).toList = s.toList ++ t.toList :=
  rfl

/-- Any string extending `INSERT INTO ` is recognized by `isInsertLine`. -/
theorem isInsertLine_append (r : String) :
    isInsertLine ("INSERT INTO " ++ r) = true := by
  simp only [isInsertLine, toList_append]
  rw [show (12 : Nat) = "INSERT INTO ".toList.length from rfl, List.take_left]
  simp

/-- In the flattened seed-row block (one statement line and one blank line
per row), exactly the statement lines are `INSERT` lines. -/
theorem filter_insertRows (mk : String → String)
    (hmk : ∀ e, isInsertLine (mk e) = true) (rows : List String) :
    (((rows.map (fun e => [mk e, ""])).flatten).filter isInsertLine).length
      = rows.length := by
  induction rows with
  | nil => rfl
  | cons a t ih =>
    have h0 : ¬ isInsertLine "" = true := by
      intro h
      exact Bool.false_ne_true h
    simp only [List.map_cons, List.flatten_cons, List.cons_append, List.nil_append]
    rw [List.filter_cons_of_pos (hmk a), List.filter_cons_of_neg h0,
      List.length_cons, ih, List.length_cons]

/-- The first 12 characters of a string starting with `INSERT INTO `. -/
theorem take12_head (r : List Char) :
    ("INSERT INTO ".toList ++ r).take 12 = "INSERT INTO ".toList := by
  rw [show (12 : Nat) = "INSERT INTO ".toList.length from rfl, List.take_left]

/-- A non-empty string has positive length. -/
theorem length_pos_of_ne_empty (s : String) (h : s ≠ "") : s.length > 0 := by
  by_cases hz : s.length > 0
  · exact hz
  · exfalso
    apply h
    have hl : s.length = 0 := Nat.eq_zero_of_not_pos hz
    cases s with
    | mk data =>
      have : data = [] := List.length_eq_zero.mp hl
      simp [this]

/-- C8: in seed-insert mode, the `INSERT` lines of the generated table text
for the `(name, age)` entity with documentation `"Alice|30\nBob|"` are
exactly the two expected statements, the second rendering the missing `age`
field as `null`; and in general the inserts section emits exactly one
`INSERT` statement line per line of the trimmed documentation. -/
theorem generateTable_seed_inserts :
    ((getOk (generateTableCore indSp indSp ePerson optsIns "public" "" [])).map
        (fun o => o.code.filter isInsertLine) =
      some ["INSERT INTO public.person (name,age ) VALUES (  'Alice' , '30'  ); ",
            "INSERT INTO public.person (name,age ) VALUES (  'Bob' , null  ); "])
    ∧ (∀ (table : String) (cols : List Column) (d : String)
        (p : List String × List Toast),
        insertsSection indSp table optsIns cols (some d) = Except.ok p →
        trimStr d ≠ "" →
        (p.1.filter isInsertLine).length = (jsSplit (trimStr d) '\n').length) := by
  constructor
  · decide
  · intro table cols d p hp hne
    have hpos : (trimStr d).length > 0 := length_pos_of_ne_empty _ hne
    simp only [insertsSection] at hp
    rw [if_pos (show optsIns.tableInserts = true from rfl)] at hp
    rw [if_pos hpos] at hp
    have hp' := Except.ok.inj hp
    rw [← hp']
    simp only [List.filter_append]
    rw [show List.filter isInsertLine [""] = [] from rfl]
    rw [List.nil_append]
    simp only [List.length_append, List.length_nil, Nat.add_zero]
    apply filter_insertRows
    intro e
    simp only [insertIntoPrefix, isInsertLine, toList_append]
    rw [show (indSp 0).toList = [] from rfl, List.nil_append]
    simp only [List.append_assoc]
    rw [take12_head]
    simp

/-- Witness for C8's per-line conjunct: applying it to the two-line
documentation of the `(name, age)` entity. -/
theorem generateTable_seed_inserts_witness :
    ∃ p, insertsSection indSp "public.person" optsIns ePerson.columns
        (some "Alice|30\nBob|") = Except.ok p ∧
      (p.1.filter isInsertLine).length =
        (jsSplit (trimStr "Alice|30\nBob|") '\n').length :=
  ⟨_, rfl, generateTable_seed_inserts.2 "public.person" ePerson.columns
    "Alice|30\nBob|" _ rfl (by decide)⟩

/-- The enum pass leaves a column's name untouched. -/
theorem enumColUpdate_name (t : String) (o : Options) (c : Column) :
    (enumColUpdate t o c).name = c.name := by
  simp only [enumColUpdate]
  split
  · split <;> rfl
  · rfl

/-- The enum pass leaves a column's tags untouched. -/
theorem enumColUpdate_tags (t : String) (o : Options) (c : Column) :
    (enumColUpdate t o c).tags = c.tags := by
  simp only [enumColUpdate]
  split
  · split <;> rfl
  · rfl

/-- The enum pass leaves a column's primary-key flag untouched. -/
theorem enumColUpdate_primaryKey (t : String) (o : Options) (c : Column) :
    (enumColUpdate t o c).primaryKey = c.primaryKey := by
  simp only [enumColUpdate]
  split
  · split <;> rfl
  · rfl

/-- The enum pass leaves a column's unique flag untouched. -/
theorem enumColUpdate_unique (t : String) (o : Options) (c : Column) :
    (enumColUpdate t o c).unique = c.unique := by
  simp only [enumColUpdate]
  split
  · split <;> rfl
  · rfl

/-- The enum pass does not change how a column's name resolves. -/
theorem columnName_enumColUpdate (t : String) (o : Options) (c : Column)
    (opts : Options) :
    columnName (enumColUpdate t o c) opts = columnName c opts := by
  simp only [columnName]
  rw [enumColUpdate_name, enumColUpdate_tags]

/-- The columns produced by the enum pass are the per-column updates. -/
theorem createEnums_cols (ind : Nat → String) (t : String) (o : Options)
    (cols : List Column) :
    (createEnums ind t o cols).2.2.1 = cols.map (enumColUpdate t o) := by
  induction cols with
  | nil => rfl
  | cons c rest ih =>
    simp only [createEnums, List.map_cons, enumColUpdate]
    split
    · split <;> simp [ih]
    · simp [ih]

/-- The primary-key names collected by the columns loop. -/
theorem classify_primaryKeys (opts : Options) (cols : List Column) :
    (classifyColumns opts cols).primaryKeys = cols.filterMap (fun col =>
      if ((columnName col opts).1 ≠ "") && col.primaryKey then
        some (columnName col opts).1 else none) := by
  induction cols with
  | nil => rfl
  | cons c t ih =>
    simp only [classifyColumns, List.filterMap_cons]
    by_cases h : ((columnName c opts).1 ≠ "" ∧ c.primaryKey = true)
    · simp [h.1, h.2, ih]
    · simp [h, ih]

/-- The unique-column names collected by the columns loop. -/
theorem classify_uniques (opts : Options) (cols : List Column) :
    (classifyColumns opts cols).uniques = cols.filterMap (fun col =>
      if ((columnName col opts).1 ≠ "") && !col.primaryKey && col.unique then
        some (columnName col opts).1 else none) := by
  induction cols with
  | nil => rfl
  | cons c t ih =>
    simp only [classifyColumns, List.filterMap_cons]
    by_cases h : (((columnName c opts).1 ≠ "" ∧ c.primaryKey = false) ∧ c.unique = true)
    · simp [h.1.1, h.1.2, h.2, ih]
    · simp [h, ih]

/-- Mapping the enum pass over the columns changes neither the collected
primary-key names (the selector reads only preserved fields). -/
theorem filterMap_pk_enum (t : String) (o : Options) (opts : Options)
    (cols : List Column) :
    (cols.map (enumColUpdate t o)).filterMap (fun col =>
      if ((columnName col opts).1 ≠ "") && col.primaryKey then
        some (columnName col opts).1 else none)
    = cols.filterMap (fun col =>
      if ((columnName col opts).1 ≠ "") && col.primaryKey then
        some (columnName col opts).1 else none) := by
  induction cols with
  | nil => rfl
  | cons c rest ih =>
    simp only [List.map_cons, List.filterMap_cons, ih,
      columnName_enumColUpdate, enumColUpdate_primaryKey]

/-- Mapping the enum pass over the columns changes neither the collected
unique-column names. -/
theorem filterMap_uq_enum (t : String) (o : Options) (opts : Options)
    (cols : List Column) :
    (cols.map (enumColUpdate t o)).filterMap (fun col =>
      if ((columnName col opts).1 ≠ "") && !col.primaryKey && col.unique then
        some (columnName col opts).1 else none)
    = cols.filterMap (fun col =>
      if ((columnName col opts).1 ≠ "") && !col.primaryKey && col.unique then
        some (columnName col opts).1 else none) := by
  induction cols with
  | nil => rfl
  | cons c rest ih =>
    simp only [List.map_cons, List.filterMap_cons, ih,
      columnName_enumColUpdate, enumColUpdate_primaryKey, enumColUpdate_unique]

/-- When every primary-key column's name resolves validly, the collected
primary-key names are exactly the names of the flagged columns in
declaration order. -/
theorem filterMap_pk_of_valid (opts : Options) (cols : List Column)
    (hv : ∀ c ∈ cols, c.primaryKey = true → (columnName c opts).1 ≠ "") :
    cols.filterMap (fun col =>
      if ((columnName col opts).1 ≠ "") && col.primaryKey then
        some (columnName col opts).1 else none)
    = (cols.filter (fun c => c.primaryKey)).map (fun c => (columnName c opts).1) := by
  induction cols with
  | nil => rfl
  | cons c t ih =>
    have hv' : ∀ x ∈ t, x.primaryKey = true → (columnName x opts).1 ≠ "" :=
      fun x hx => hv x (List.mem_cons_of_mem _ hx)
    by_cases hpk : c.primaryKey = true
    · have hn := hv c (List.mem_cons_self _ _) hpk
      simp [List.filterMap_cons, List.filter_cons, hpk, hn]
      simpa using ih hv'
    · simp [List.filterMap_cons, List.filter_cons, hpk]
      simpa using ih hv'

/-- When every unique, non-primary-key column's name resolves validly, the
collected unique names are exactly the names of the non-primary-key
unique-flagged columns in declaration order. -/
theorem filterMap_uq_of_valid (opts : Options) (cols : List Column)
    (hv : ∀ c ∈ cols, c.primaryKey = false → c.unique = true →
      (columnName c opts).1 ≠ "") :
    cols.filterMap (fun col =>
      if ((columnName col opts).1 ≠ "") && !col.primaryKey && col.unique then
        some (columnName col opts).1 else none)
    = (cols.filter (fun c => !c.primaryKey && c.unique)).map
        (fun c => (columnName c opts).1) := by
  induction cols with
  | nil => rfl
  | cons c t ih =>
    have hv' : ∀ x ∈ t, x.primaryKey = false → x.unique = true →
        (columnName x opts).1 ≠ "" :=
      fun x hx => hv x (List.mem_cons_of_mem _ hx)
    by_cases hpk : c.primaryKey = false
    · by_cases huq : c.unique = true
      · have hn := hv c (List.mem_cons_self _ _) hpk huq
        simp [List.filterMap_cons, List.filter_cons, hpk, huq, hn]
        simpa using ih hv'
      · simp [List.filterMap_cons, List.filter_cons, hpk, huq]
        simpa using ih hv'
    · have hpk' : c.primaryKey = true := by
        cases hc : c.primaryKey
        · exact absurd hc hpk
        · rfl
      simp [List.filterMap_cons, List.filter_cons, hpk']
      simpa using ih hv'

/-- `renderBody` on a body ending in its primary-key clause: every earlier
entry gets a comma, the final entry none. -/
theorem renderBody_concat (ind : String) (xs : List String) (y : String) :
    renderBody ind (xs ++ [y]) = xs.map (fun l => ind ++ l ++ ",") ++ [ind ++ y] := by
  induction xs with
  | nil => simp [renderBody]
  | cons a t ih =>
    simp only [List.cons_append, renderBody]
    have : ¬ (t ++ [y] = []) := by simp
    simp [this, ih]

/-- The inserts section succeeds whenever seed mode is off or documentation
is present. -/
theorem insertsSection_ok (ind : Nat → String) (table : String)
    (opts : Options) (cols : List Column) (doc : Option String)
    (h : opts.tableInserts = true → doc ≠ none) :
    ∃ p, insertsSection ind table opts cols doc = Except.ok p := by
  unfold insertsSection
  by_cases ht : opts.tableInserts = true
  · rw [if_pos ht]
    cases doc with
    | none => exact absurd rfl (h ht)
    | some d =>
      simp only []
      split
      · exact ⟨_, rfl⟩
      · exact ⟨_, rfl⟩
  · rw [if_neg ht]
    exact ⟨_, rfl⟩

/-- Regrouping of the generated table text around the primary-key clause:
the clause entry, the `);` line and the blank line form one contiguous
segment. -/
theorem code_block_split {α : Type} (E M R1 R2 R3 R4 R5 R6 R7 : List α)
    (cr p q e : α) :
    E ++ [cr] ++ (M ++ [p]) ++ [q, e] ++ R1 ++ R2 ++ R3 ++ R4 ++ R5 ++ R6 ++ R7
      = (E ++ [cr] ++ M) ++ [p, q, e] ++
        (R1 ++ R2 ++ R3 ++ R4 ++ R5 ++ R6 ++ R7) := by
  simp [List.append_assoc]

/-- Regrouping of the generated table text around the unique-constraint
block. -/
theorem code_block_split2 {α : Type} (E B T R1 R2 R3 R4 R5 R6 : List α)
    (cr a b e : α) :
    E ++ [cr] ++ B ++ T ++ [a, b, e] ++ R1 ++ R2 ++ R3 ++ R4 ++ R5 ++ R6
      = (E ++ [cr] ++ B ++ T) ++ [a, b, e] ++
        (R1 ++ R2 ++ R3 ++ R4 ++ R5 ++ R6) := by
  simp [List.append_assoc]

/-- C7 (counterexample): an entity whose only column is flagged primary key
but has an invalid name produces no `PRIMARY KEY` clause at all — the
column is skipped by the `if (column)` guard — refuting the claim that the
clause always lists every primary-key-flagged column. -/
theorem pk_clause_missing_for_invalid_name :
    (getOk (generateTableCore indSp indSp ePkBad optsBase "public" "" [])).map
      (fun o => (o.code.filter (fun l => containsSubstr l "PRIMARY KEY"),
        ePkBad.columns.any (fun c => c.primaryKey))) = some ([], true) := by
  decide

/-- C7 (amended): for every entity with at least one primary-key-flagged
column, as long as every primary-key-flagged column's name resolves to a
valid (non-empty) identifier, the table body ends with an inline
`PRIMARY KEY (...)` clause — immediately before the closing `);` — listing
exactly the primary-key-flagged columns in declaration order. -/
theorem generateTableCore_pk_clause (elem : Entity) (opts : Options)
    (sch pfx : String) (refs : List String) (ind dnd : Nat → String)
    (hv : ∀ c ∈ elem.columns, c.primaryKey = true → (columnName c opts).1 ≠ "")
    (hpk : ∃ c ∈ elem.columns, c.primaryKey = true)
    (hins : opts.tableInserts = true → elem.documentation ≠ none) :
    ∃ o,
      generateTableCore ind dnd elem opts sch pfx refs = Except.ok o ∧
      [ind 1 ++ ("PRIMARY KEY (" ++ String.intercalate ", "
          ((elem.columns.filter (fun c => c.primaryKey)).map
            (fun c => (columnName c opts).1)) ++ ")"),
       ind 0 ++ ");", ""] <:+: o.code := by
  obtain ⟨p, hp⟩ := insertsSection_ok ind
    (sch ++ "." ++ (pfx ++ (tableName elem opts).1)) opts
    ((createEnums ind (sch ++ "." ++ (pfx ++ (tableName elem opts).1)) opts
      elem.columns).2.2.1)
    elem.documentation hins
  have hpks : (classifyColumns opts
      ((createEnums ind (sch ++ "." ++ (pfx ++ (tableName elem opts).1)) opts
        elem.columns).2.2.1)).primaryKeys
      = (elem.columns.filter (fun c => c.primaryKey)).map
          (fun c => (columnName c opts).1) := by
    rw [createEnums_cols, classify_primaryKeys, filterMap_pk_enum,
      filterMap_pk_of_valid opts elem.columns hv]
  have hne : ¬ ((classifyColumns opts
      ((createEnums ind (sch ++ "." ++ (pfx ++ (tableName elem opts).1)) opts
        elem.columns).2.2.1)).primaryKeys = []) := by
    rw [hpks]
    obtain ⟨c, hc, hcpk⟩ := hpk
    intro hemp
    have hcf : c ∈ elem.columns.filter (fun c => c.primaryKey) :=
      List.mem_filter.mpr ⟨hc, hcpk⟩
    rw [List.map_eq_nil_iff] at hemp
    rw [hemp] at hcf
    exact List.not_mem_nil c hcf
  simp only [generateTableCore]
  rw [hp]
  simp only []
  rw [if_neg hne, hpks, renderBody_concat]
  refine ⟨_, rfl, ?_⟩
  simp only []
  rw [code_block_split]
  exact List.infix_append _ _ _

/-- Witness for C7's amended theorem: entity `b` with its valid primary-key
column `id`. -/
theorem generateTableCore_pk_clause_witness :
    ∃ o,
      generateTableCore indSp indSp entB optsBase "public" "" [] = Except.ok o ∧
      [indSp 1 ++ ("PRIMARY KEY (" ++ String.intercalate ", "
          ((entB.columns.filter (fun c => c.primaryKey)).map
            (fun c => (columnName c optsBase).1)) ++ ")"),
       indSp 0 ++ ");", ""] <:+: o.code :=
  generateTableCore_pk_clause entB optsBase "public" "" [] indSp indSp
    (by decide) (by decide) (by decide)

/-- C9 (counterexample): an entity whose unique-flagged non-primary-key
column has an invalid name produces no `ADD UNIQUE` statement at all,
refuting the claim that one is always emitted. -/
theorem unique_clause_missing_for_invalid_name :
    (getOk (generateTableCore indSp indSp eUqBad optsBase "public" "" [])).map
      (fun o => (o.code.filter (fun l => containsSubstr l "ADD UNIQUE"),
        eUqBad.columns.any (fun c => !c.primaryKey && c.unique))) =
      some ([], true) := by
  decide

/-- C9 (amended): for every entity with at least one unique-flagged
non-primary-key column, as long as every such column's name resolves to a
valid (non-empty) identifier, the constraint section emits a single
`ALTER TABLE ... ADD UNIQUE (...)` block listing all such columns together
as one composite constraint, in declaration order; columns flagged both
primary key and unique are excluded (they contribute only to the primary
key). -/
theorem generateTableCore_unique_clause (elem : Entity) (opts : Options)
    (sch pfx : String) (refs : List String) (ind dnd : Nat → String)
    (hv : ∀ c ∈ elem.columns, c.primaryKey = false → c.unique = true →
      (columnName c opts).1 ≠ "")
    (hu : ∃ c ∈ elem.columns, c.primaryKey = false ∧ c.unique = true)
    (hins : opts.tableInserts = true → elem.documentation ≠ none) :
    ∃ o,
      generateTableCore ind dnd elem opts sch pfx refs = Except.ok o ∧
      [ind 0 ++ "ALTER TABLE " ++ (sch ++ "." ++ (pfx ++ (tableName elem opts).1)),
       ind 1 ++ "ADD UNIQUE (" ++ String.intercalate ", "
          ((elem.columns.filter (fun c => !c.primaryKey && c.unique)).map
            (fun c => (columnName c opts).1)) ++ ");",
       ""] <:+: o.code := by
  obtain ⟨p, hp⟩ := insertsSection_ok ind
    (sch ++ "." ++ (pfx ++ (tableName elem opts).1)) opts
    ((createEnums ind (sch ++ "." ++ (pfx ++ (tableName elem opts).1)) opts
      elem.columns).2.2.1)
    elem.documentation hins
  have huqs : (classifyColumns opts
      ((createEnums ind (sch ++ "." ++ (pfx ++ (tableName elem opts).1)) opts
        elem.columns).2.2.1)).uniques
      = (elem.columns.filter (fun c => !c.primaryKey && c.unique)).map
          (fun c => (columnName c opts).1) := by
    rw [createEnums_cols, classify_uniques, filterMap_uq_enum,
      filterMap_uq_of_valid opts elem.columns hv]
  have hne : ¬ ((classifyColumns opts
      ((createEnums ind (sch ++ "." ++ (pfx ++ (tableName elem opts).1)) opts
        elem.columns).2.2.1)).uniques = []) := by
    rw [huqs]
    obtain ⟨c, hc, hcpk, hcuq⟩ := hu
    intro hemp
    have hcf : c ∈ elem.columns.filter (fun c => !c.primaryKey && c.unique) :=
      List.mem_filter.mpr ⟨hc, by simp [hcpk, hcuq]⟩
    rw [List.map_eq_nil_iff] at hemp
    rw [hemp] at hcf
    exact List.not_mem_nil c hcf
  simp only [generateTableCore]
  rw [hp]
  simp only []
  rw [if_neg hne, huqs]
  refine ⟨_, rfl, ?_⟩
  simp only []
  rw [code_block_split2]
  exact List.infix_append _ _ _

/-- Witness for C9's amended theorem: the entity with unique columns `a`,
`b` and a primary-key-and-unique column `k`. -/
theorem generateTableCore_unique_clause_witness :
    ∃ o,
      generateTableCore indSp indSp eUqGood optsBase "public" "" [] = Except.ok o ∧
      [indSp 0 ++ "ALTER TABLE " ++ ("public" ++ "." ++ ("" ++ (tableName eUqGood optsBase).1)),
       indSp 1 ++ "ADD UNIQUE (" ++ String.intercalate ", "
          ((eUqGood.columns.filter (fun c => !c.primaryKey && c.unique)).map
            (fun c => (columnName c optsBase).1)) ++ ");",
       ""] <:+: o.code :=
  generateTableCore_unique_clause eUqGood optsBase "public" "" [] indSp indSp
    (by decide) (by decide) (by decide)

end DDL
